import Mathlib

/-!
Verification of the liveness-tracking heartbeat monitor.

The repository contains three variants of the engine:
* a file-backed monitor (`part_000`): `app.post('/api/heartbeat')`,
  `checkDisconnectedClients` (the periodic sweep);
* a Redis-backed monitor (`dist/index.js`): `app.post('/api/heartbeat')`
  with bootTime-based reboot detection and an `lPush`/`lTrim`-bounded
  event list;
* a heartbeat-status tracker (`src/index.ts`): `trackHeartbeat`,
  `GET /heartbeat-status`, `DELETE /heartbeat-cleanup`.

Timestamps are embedded as `Int` milliseconds since the epoch (the value of
`Date.getTime()` / `Date.now()`); JavaScript `Date` comparison and
arithmetic on such values is plain integer comparison and arithmetic, and
`Math.floor(a / b)` for integer `a` and positive integer `b` is `Int.fdiv`.
JavaScript objects used as string-keyed maps are embedded as association
lists with in-place update (`upsert`): assignment to an existing key keeps
its position, a new key is appended last, matching property order.
-/

namespace HeartbeatMonitor

/-- Connectivity status literals `'connected' | 'disconnected'`. -/
inductive Status where
  | connected
  | disconnected
deriving DecidableEq, Repr

/-- Event type literals `'outage' | 'reconnection' | 'reboot' | 'disconnection'`. -/
inductive EventType where
  | outage
  | reconnection
  | reboot
  | disconnection
deriving DecidableEq, Repr

/-- The `PowerEvent` record of `part_000` (also the event shape pushed by
`dist/index.js`): `id`, `type`, `timestamp`, optional `duration`,
`clientId`, optional `hostname`, `details`. -/
structure PowerEvent where
  id : String
  type : EventType
  timestamp : Int
  duration : Option Int
  clientId : String
  hostname : Option String
  details : String
deriving DecidableEq, Repr

/-- The `ClientInfo` record of `part_000`: `lastSeen`, `bootTime`,
`status`, optional `hostname`. -/
structure ClientInfo where
  lastSeen : Int
  bootTime : Int
  status : Status
  hostname : Option String
deriving DecidableEq, Repr

/-- The `monitorData` state of `part_000`: the event list (push appends at
the end, so oldest first) and the client registry object. -/
structure MonitorData where
  events : List PowerEvent
  clients : List (String × ClientInfo)
deriving DecidableEq, Repr

/-- The destructured heartbeat request body
`{ clientId, timestamp, bootTime, isReboot, isFirstRun, hostname }`. -/
structure HeartbeatReq where
  clientId : Option String
  timestamp : Option Int
  bootTime : Option Int
  isReboot : Bool
  isFirstRun : Bool
  hostname : Option String
deriving DecidableEq, Repr

/-- Lookup of a string-keyed property: `obj[k]`, own properties only. -/
def lookupC {α : Type} (k : String) : List (String × α) → Option α
  | [] => none
  | (k', v) :: rest => if k' = k then some v else lookupC k rest

/-- Property assignment `obj[k] = v`: overwrite in place, or append a new
key at the end. -/
def upsert {α : Type} (k : String) (v : α) : List (String × α) → List (String × α)
  | [] => [(k, v)]
  | (k', v') :: rest => if k' = k then (k, v) :: rest else (k', v') :: upsert k v rest

/-- JavaScript `a || b` on an optional string: falsy (absent or empty)
falls through to the default. -/
def strOr (o : Option String) (d : String) : String :=
  match o with
  | none => d
  | some s => if s = "" then d else s

/-- JavaScript falsiness of the destructured `clientId` (absent or the
empty string). -/
def jsFalsy (o : Option String) : Bool :=
  match o with
  | none => true
  | some s => s = ""

/-- The reboot event literal built by both heartbeat handlers:
`{ id: event_Date.now(), type: 'reboot', timestamp, clientId, hostname,
details }`. -/
def mkRebootEvent (now : Int) (cid : String) (hn : Option String) : PowerEvent :=
  { id := "event_" ++ toString now
    type := EventType.reboot
    timestamp := now
    duration := none
    clientId := cid
    hostname := hn
    details := "Reinicio del servidor - " ++ strOr hn cid }

/-- The reconnection event literal of `part_000`, carrying the computed
downtime as `duration`. -/
def mkReconEvent (now : Int) (cid : String) (hn : Option String) (downtime : Int) :
    PowerEvent :=
  { id := "event_" ++ toString now
    type := EventType.reconnection
    timestamp := now
    duration := some downtime
    clientId := cid
    hostname := hn
    details := "Reconexión después de " ++ toString downtime ++ " segundos - " ++ strOr hn cid }

/-- The disconnection event literal of `checkDisconnectedClients`. -/
def mkDiscEvent (now : Int) (cid : String) (c : ClientInfo) : PowerEvent :=
  { id := "event_" ++ toString now
    type := EventType.disconnection
    timestamp := now
    duration := none
    clientId := cid
    hostname := c.hostname
    details := "Cliente desconectado - " ++ strOr c.hostname cid }

/-- Outcome of the file-backed heartbeat handler: HTTP 400 or the
`{ status: 'ok', ... }` response. -/
inductive HbResult where
  | badRequest
  | ok
deriving DecidableEq, Repr

/-- The heartbeat handler of `part_000` (`app.post('/api/heartbeat')`):
reject a falsy `clientId`; if `isReboot` and the client exists, push a
reboot event; if the existing record is `disconnected`, push a
reconnection event with `duration = Math.floor((now - lastSeen) / 1000)`;
then unconditionally overwrite the record with
`{ lastSeen: now, bootTime: bootTime || now, status: 'connected', hostname }`. -/
def heartbeatFile (now : Int) (req : HeartbeatReq) (st : MonitorData) :
    MonitorData × HbResult :=
  if jsFalsy req.clientId then (st, HbResult.badRequest)
  else
    let cid := req.clientId.getD ""
    let existing := lookupC cid st.clients
    let evs1 :=
      if req.isReboot && existing.isSome then
        st.events ++ [mkRebootEvent now cid req.hostname]
      else st.events
    let evs2 :=
      match existing with
      | some c =>
          if c.status = Status.disconnected then
            evs1 ++ [mkReconEvent now cid req.hostname ((now - c.lastSeen).fdiv 1000)]
          else evs1
      | none => evs1
    let newRec : ClientInfo :=
      { lastSeen := now
        bootTime := req.bootTime.getD now
        status := Status.connected
        hostname := req.hostname }
    ({ events := evs2, clients := upsert cid newRec st.clients }, HbResult.ok)

/-- `FIVE_MINUTES = 5 * 60 * 1000` milliseconds. -/
def FIVE_MINUTES : Int := 5 * 60 * 1000

/-- The sweep's per-client test: `status === 'connected'` and
`now - lastSeen > FIVE_MINUTES`. -/
def sweepGuard (now : Int) (c : ClientInfo) : Bool :=
  c.status = Status.connected && now - c.lastSeen > FIVE_MINUTES

/-- The sweep's per-client update: demote a timed-out connected client. -/
def sweepUpdate (now : Int) (c : ClientInfo) : ClientInfo :=
  if sweepGuard now c then { c with status := Status.disconnected } else c

/-- One iteration of the sweep's `forEach`: the updated entry plus the
disconnection event it pushed, if any. -/
def sweepEntry (now : Int) (p : String × ClientInfo) :
    (String × ClientInfo) × Option PowerEvent :=
  if sweepGuard now p.2 then
    ((p.1, { p.2 with status := Status.disconnected }), some (mkDiscEvent now p.1 p.2))
  else (p, none)

/-- `checkDisconnectedClients` of `part_000`: demote every connected
client unseen for more than five minutes and push one disconnection event
per demoted client, in registry order. -/
def checkDisconnectedClients (now : Int) (st : MonitorData) : MonitorData :=
  let swept := st.clients.map (sweepEntry now)
  { events := st.events ++ swept.filterMap (fun q => q.2)
    clients := swept.map (fun q => q.1) }

/-- A client hash stored at `client:<clientId>` by the Redis-backed
handler (`dist/index.js`): it always carries all four fields, since `hSet`
always writes all of them. -/
structure RedisClient where
  lastSeen : Int
  bootTime : Int
  status : Status
  hostname : String
deriving DecidableEq, Repr

/-- The Redis-backed state: the `events` list (`lPush` prepends, so newest
first) and the `client:*` hashes. -/
structure RedisState where
  events : List PowerEvent
  clients : List (String × RedisClient)
deriving DecidableEq, Repr

/-- Outcome of the Redis-backed heartbeat handler: HTTP 400 or
`{ status: 'ok', ..., isReboot }`. -/
inductive RedisResult where
  | badRequest
  | ok (isReboot : Bool)
deriving DecidableEq, Repr

/-- The event-list bound: `lTrim('events', 0, 999)` keeps at most 1000
entries. -/
def EVENTS_MAX : Nat := 1000

/-- `lPush` followed by `lTrim('events', 0, 999)`: prepend, then keep the
newest `EVENTS_MAX` entries. -/
def redisAppend (e : PowerEvent) (evs : List PowerEvent) : List PowerEvent :=
  (e :: evs).take EVENTS_MAX

/-- The heartbeat handler of `dist/index.js`: reject a falsy `clientId`;
detect a real reboot when the stored hash exists (so carries a `bootTime`),
the report carries a `bootTime`, the two differ, and the report is not
flagged `isFirstRun`; if so push one reboot event and trim the list; then
unconditionally `hSet` the client hash with
`{ lastSeen: now, bootTime: bootTime || now, status: 'connected',
hostname: hostname || 'unknown' }` and answer with the reboot flag. -/
def heartbeatRedis (now : Int) (req : HeartbeatReq) (st : RedisState) :
    RedisState × RedisResult :=
  if jsFalsy req.clientId then (st, RedisResult.badRequest)
  else
    let cid := req.clientId.getD ""
    let key := "client:" ++ cid
    let shouldCreateRebootEvent :=
      match lookupC key st.clients, req.bootTime with
      | some c, some b => decide (c.bootTime ≠ b) && !req.isFirstRun
      | _, _ => false
    let evs :=
      if shouldCreateRebootEvent then
        redisAppend (mkRebootEvent now cid req.hostname) st.events
      else st.events
    let newRec : RedisClient :=
      { lastSeen := now
        bootTime := req.bootTime.getD now
        status := Status.connected
        hostname := strOr req.hostname "unknown" }
    ({ events := evs, clients := upsert key newRec st.clients },
     RedisResult.ok shouldCreateRebootEvent)

/-- The `ClientData` record of `src/index.ts`: `lastHeartbeat`, `ip`,
`userAgent`, `totalHeartbeats`. -/
structure ClientData where
  lastHeartbeat : Int
  ip : Option String
  userAgent : Option String
  totalHeartbeats : Nat
deriving DecidableEq, Repr

/-- The `heartbeatsData` state of `src/index.ts` (the `lastCheck` field is
never read by the endpoints under study). -/
structure HeartbeatsData where
  clients : List (String × ClientData)
deriving DecidableEq, Repr

/-- The `trackHeartbeat` middleware of `src/index.ts` on a `/heartbeat`
request: key the record by `headers['client-id'] || req.ip || 'unknown'`
and overwrite it with a fresh `lastHeartbeat` and an incremented
`totalHeartbeats`. -/
def trackHeartbeat (now : Int) (clientIdHeader ip userAgent : Option String)
    (st : HeartbeatsData) : HeartbeatsData :=
  let cid := strOr clientIdHeader (strOr ip "unknown")
  let existing := lookupC cid st.clients
  let rec' : ClientData :=
    { lastHeartbeat := now
      ip := ip
      userAgent := userAgent
      totalHeartbeats := (existing.map ClientData.totalHeartbeats).getD 0 + 1 }
  { clients := upsert cid rec' st.clients }

/-- The value of the digit run `ds` read in base 10. -/
def digitsToNat (ds : List Char) : Nat :=
  ds.foldl (fun a c => a * 10 + (c.toNat - 48)) 0

/-- JavaScript `parseInt(s)` restricted to base-10 inputs: skip leading
spaces, read an optional sign and the maximal leading digit run; `none`
(`NaN`) when there is no leading digit. -/
def parseIntJS (s : String) : Option Int :=
  let cs := s.data.dropWhile (fun c => c = ' ')
  let signRest : Int × List Char :=
    match cs with
    | '-' :: r => (-1, r)
    | '+' :: r => (1, r)
    | r => (1, r)
  let ds := signRest.2.takeWhile Char.isDigit
  if ds.isEmpty then none
  else some (signRest.1 * (digitsToNat ds : Int))

/-- The `parseInt(q) || d` idiom of `src/index.ts`: an absent parameter,
an unparseable one (`NaN`) and a parsed `0` all fall through to the
default. -/
def jsIntOr (d : Int) (q : Option String) : Int :=
  match q with
  | none => d
  | some s =>
    match parseIntJS s with
    | none => d
    | some n => if n = 0 then d else n

/-- The per-client status literal of `GET /heartbeat-status`. -/
inductive Liveness where
  | active
  | inactive
deriving DecidableEq, Repr

/-- The per-client classification of `GET /heartbeat-status`:
`lastHeartbeat > cutoffTime ? 'active' : 'inactive'` with
`cutoffTime = now - timeoutMinutes * 60000`. -/
def clientLiveness (now : Int) (timeoutMinutes : Int) (d : ClientData) : Liveness :=
  if d.lastHeartbeat > now - timeoutMinutes * 60000 then Liveness.active
  else Liveness.inactive

/-- The `GET /heartbeat-status` endpoint of `src/index.ts`, reduced to the
data the claims are about: the effective `timeoutMinutes`
(`parseInt(req.query.timeout) || 5`) and, per client, the status literal
and `minutesSinceLast = Math.floor((now - lastHeartbeat) / 60000)`. -/
def heartbeatStatus (now : Int) (timeoutQ : Option String) (st : HeartbeatsData) :
    Int × List (String × Liveness × Int) :=
  let t := jsIntOr 5 timeoutQ
  (t, st.clients.map (fun p => (p.1, clientLiveness now t p.2, (now - p.2.lastHeartbeat).fdiv 60000)))

/-- The `DELETE /heartbeat-cleanup` endpoint of `src/index.ts`: with
`hours = parseInt(req.query.hours) || 24` and
`cutoffTime = now - hours * 3600000`, delete every client whose
`lastHeartbeat < cutoffTime` and report how many were removed. -/
def cleanup (now : Int) (hoursQ : Option String) (st : HeartbeatsData) :
    HeartbeatsData × Nat :=
  let hours := jsIntOr 24 hoursQ
  let cutoffTime := now - hours * 3600000
  ({ clients := st.clients.filter (fun p => !(p.2.lastHeartbeat < cutoffTime)) },
   st.clients.countP (fun p => p.2.lastHeartbeat < cutoffTime))

theorem lookupC_upsert_self {α : Type} (k : String) (v : α) (l : List (String × α)) :
    lookupC k (upsert k v l) = some v := by
  induction l with
  | nil => simp [upsert, lookupC]
  | cons p rest ih =>
    by_cases h : p.1 = k
    · simp [upsert, lookupC, h]
    · simp [upsert, lookupC, h, ih]

theorem upsert_eq_append {α : Type} {k : String} {l : List (String × α)}
    (h : lookupC k l = none) (v : α) : upsert k v l = l ++ [(k, v)] := by
  induction l with
  | nil => simp [upsert]
  | cons p rest ih =>
    by_cases hk : p.1 = k
    · simp [lookupC, hk] at h
    · simp [lookupC, hk] at h
      simp [upsert, hk, ih h]

theorem mem_keys_upsert {α : Type} {a : String} {l : List (String × α)}
    (k : String) (v : α) (h : a ∈ l.map Prod.fst) :
    a ∈ (upsert k v l).map Prod.fst := by
  induction l with
  | nil => simp at h
  | cons p rest ih =>
    by_cases hk : p.1 = k
    · simp [upsert, hk]
      simp [hk] at h
      rcases h with h | h
      · exact Or.inl h
      · exact Or.inr h
    · simp [upsert, hk]
      simp at h
      rcases h with h | h
      · exact Or.inl h
      · exact Or.inr (by simpa using ih (by simpa using h))

theorem lookupC_append_self {α : Type} {k : String} {l : List (String × α)}
    (h : lookupC k l = none) (v : α) : lookupC k (l ++ [(k, v)]) = some v := by
  induction l with
  | nil => simp [lookupC]
  | cons p rest ih =>
    by_cases hk : p.1 = k
    · simp [lookupC, hk] at h
    · simp [lookupC, hk] at h ⊢
      exact ih h

/-- C6: a heartbeat whose body carries no `clientId` is rejected with an
error result by both heartbeat handlers and leaves the state (client
registry and event log) exactly as it was. -/
theorem C6_missing_clientId_rejected_no_mutation
    (now : Int) (req : HeartbeatReq) (stF : MonitorData) (stR : RedisState)
    (h : req.clientId = none) :
    heartbeatFile now req stF = (stF, HbResult.badRequest) ∧
    heartbeatRedis now req stR = (stR, RedisResult.badRequest) := by
  constructor
  · simp [heartbeatFile, jsFalsy, h]
  · simp [heartbeatRedis, jsFalsy, h]

theorem C6_missing_clientId_rejected_no_mutation_witness :
    heartbeatFile 1000
        { clientId := none, timestamp := none, bootTime := some 7,
          isReboot := true, isFirstRun := false, hostname := some "h" }
        { events := [], clients := [] }
      = ({ events := [], clients := [] }, HbResult.badRequest) ∧
    heartbeatRedis 1000
        { clientId := none, timestamp := none, bootTime := some 7,
          isReboot := true, isFirstRun := false, hostname := some "h" }
        { events := [], clients := [] }
      = ({ events := [], clients := [] }, RedisResult.badRequest) :=
  C6_missing_clientId_rejected_no_mutation 1000 _ _ _ rfl

/-- C3: a heartbeat carrying a `clientId` not present in the registry
creates exactly one new client record with status `connected` and emits no
event, in both heartbeat handlers, regardless of any reboot flag the
report carries (no assumption is made on `isReboot`, `isFirstRun` or
`bootTime`). -/
theorem C3_first_contact_creates_connected_no_events
    (now : Int) (req : HeartbeatReq) (stF : MonitorData) (stR : RedisState) (cid : String)
    (hcid : req.clientId = some cid) (hne : cid ≠ "")
    (hlF : lookupC cid stF.clients = none)
    (hlR : lookupC ("client:" ++ cid) stR.clients = none) :
    (heartbeatFile now req stF).1.events = stF.events ∧
    lookupC cid (heartbeatFile now req stF).1.clients
      = some { lastSeen := now, bootTime := req.bootTime.getD now,
               status := Status.connected, hostname := req.hostname } ∧
    (heartbeatFile now req stF).1.clients.length = stF.clients.length + 1 ∧
    (heartbeatRedis now req stR).1.events = stR.events ∧
    lookupC ("client:" ++ cid) (heartbeatRedis now req stR).1.clients
      = some { lastSeen := now, bootTime := req.bootTime.getD now,
               status := Status.connected, hostname := strOr req.hostname "unknown" } ∧
    (heartbeatRedis now req stR).1.clients.length = stR.clients.length + 1 ∧
    (heartbeatRedis now req stR).2 = RedisResult.ok false := by
  have hfal : jsFalsy (some cid) = false := by simp [jsFalsy, hne]
  refine ⟨?_, ?_, ?_, ?_, ?_, ?_, ?_⟩ <;>
    simp [heartbeatFile, heartbeatRedis, hfal, hcid, hlF, hlR,
      lookupC_upsert_self, upsert_eq_append hlF, upsert_eq_append hlR,
      lookupC_append_self hlF, lookupC_append_self hlR]

theorem C3_first_contact_creates_connected_no_events_witness :
    (heartbeatFile 1000
        { clientId := some "a", timestamp := none, bootTime := some 7,
          isReboot := true, isFirstRun := false, hostname := none }
        { events := [], clients := [] }).1.events = [] ∧
    lookupC "a" (heartbeatFile 1000
        { clientId := some "a", timestamp := none, bootTime := some 7,
          isReboot := true, isFirstRun := false, hostname := none }
        { events := [], clients := [] }).1.clients
      = some { lastSeen := 1000, bootTime := 7,
               status := Status.connected, hostname := none } ∧
    (heartbeatFile 1000
        { clientId := some "a", timestamp := none, bootTime := some 7,
          isReboot := true, isFirstRun := false, hostname := none }
        { events := [], clients := [] }).1.clients.length = 0 + 1 ∧
    (heartbeatRedis 1000
        { clientId := some "a", timestamp := none, bootTime := some 7,
          isReboot := true, isFirstRun := false, hostname := none }
        { events := [], clients := [] }).1.events = [] ∧
    lookupC "client:a" (heartbeatRedis 1000
        { clientId := some "a", timestamp := none, bootTime := some 7,
          isReboot := true, isFirstRun := false, hostname := none }
        { events := [], clients := [] }).1.clients
      = some { lastSeen := 1000, bootTime := 7,
               status := Status.connected, hostname := "unknown" } ∧
    (heartbeatRedis 1000
        { clientId := some "a", timestamp := none, bootTime := some 7,
          isReboot := true, isFirstRun := false, hostname := none }
        { events := [], clients := [] }).1.clients.length = 0 + 1 ∧
    (heartbeatRedis 1000
        { clientId := some "a", timestamp := none, bootTime := some 7,
          isReboot := true, isFirstRun := false, hostname := none }
        { events := [], clients := [] }).2 = RedisResult.ok false := by
  have h := C3_first_contact_creates_connected_no_events 1000
    { clientId := some "a", timestamp := none, bootTime := some 7,
      isReboot := true, isFirstRun := false, hostname := none }
    { events := [], clients := [] } { events := [], clients := [] } "a"
    rfl (by decide) rfl rfl
  simpa using h

/-- C1: a heartbeat from a client whose stored record is `disconnected`
transitions the record to `connected`, only appends to the event log, and
the appended events contain exactly one `reconnection` event, whose
`duration` is `Math.floor((now - lastSeen) / 1000)` seconds — with no
assumption on `isReboot`, so this holds whether or not a reboot event also
fires on the same heartbeat. -/
theorem C1_disconnected_heartbeat_reconnection
    (now : Int) (req : HeartbeatReq) (st : MonitorData) (cid : String) (c : ClientInfo)
    (hcid : req.clientId = some cid) (hne : cid ≠ "")
    (hl : lookupC cid st.clients = some c) (hdisc : c.status = Status.disconnected) :
    lookupC cid (heartbeatFile now req st).1.clients
      = some { lastSeen := now, bootTime := req.bootTime.getD now,
               status := Status.connected, hostname := req.hostname } ∧
    (heartbeatFile now req st).1.events
      = st.events ++ ((heartbeatFile now req st).1.events.drop st.events.length) ∧
    ∃ e : PowerEvent,
      ((heartbeatFile now req st).1.events.drop st.events.length).filter
          (fun x => x.type = EventType.reconnection) = [e] ∧
      e.duration = some ((now - c.lastSeen).fdiv 1000) := by
  have hfal : jsFalsy (some cid) = false := by simp [jsFalsy, hne]
  cases hb : req.isReboot <;>
    simp [heartbeatFile, hfal, hcid, hl, hdisc, hb, lookupC_upsert_self,
      mkRebootEvent, mkReconEvent, List.drop_left, List.append_assoc, List.filter]

theorem C1_disconnected_heartbeat_reconnection_witness :
    lookupC "a" (heartbeatFile 7500
        { clientId := some "a", timestamp := none, bootTime := some 9,
          isReboot := true, isFirstRun := false, hostname := none }
        { events := [],
          clients := [("a", { lastSeen := 1000, bootTime := 3,
                              status := Status.disconnected, hostname := none })] }).1.clients
      = some { lastSeen := 7500, bootTime := 9,
               status := Status.connected, hostname := none } ∧
    (heartbeatFile 7500
        { clientId := some "a", timestamp := none, bootTime := some 9,
          isReboot := true, isFirstRun := false, hostname := none }
        { events := [],
          clients := [("a", { lastSeen := 1000, bootTime := 3,
                              status := Status.disconnected, hostname := none })] }).1.events
      = [] ++ ((heartbeatFile 7500
        { clientId := some "a", timestamp := none, bootTime := some 9,
          isReboot := true, isFirstRun := false, hostname := none }
        { events := [],
          clients := [("a", { lastSeen := 1000, bootTime := 3,
                              status := Status.disconnected, hostname := none })] }).1.events.drop
          ([] : List PowerEvent).length) ∧
    ∃ e : PowerEvent,
      ((heartbeatFile 7500
        { clientId := some "a", timestamp := none, bootTime := some 9,
          isReboot := true, isFirstRun := false, hostname := none }
        { events := [],
          clients := [("a", { lastSeen := 1000, bootTime := 3,
                              status := Status.disconnected, hostname := none })] }).1.events.drop
          ([] : List PowerEvent).length).filter
          (fun x => x.type = EventType.reconnection) = [e] ∧
      e.duration = some ((7500 - 1000 : Int).fdiv 1000) :=
  C1_disconnected_heartbeat_reconnection 7500
    { clientId := some "a", timestamp := none, bootTime := some 9,
      isReboot := true, isFirstRun := false, hostname := none }
    { events := [],
      clients := [("a", { lastSeen := 1000, bootTime := 3,
                          status := Status.disconnected, hostname := none })] }
    "a" { lastSeen := 1000, bootTime := 3,
          status := Status.disconnected, hostname := none }
    rfl (by decide) rfl rfl

/-- C2 counterexample: in the file-backed handler (`part_000`), a
heartbeat from the existing client `"a"` whose stored `bootTime` is `100`,
carrying `bootTime = 200` (different) and `isFirstRun = false`, emits zero
`reboot` events — the claim demands exactly one. (That handler keys reboot
detection solely on the report's `isReboot` flag, here `false`.) -/
theorem C2_bootTime_reboot_counterexample :
    lookupC "a" (MonitorData.clients
        { events := [],
          clients := [("a", { lastSeen := 0, bootTime := 100,
                              status := Status.connected, hostname := none })] })
      = some { lastSeen := 0, bootTime := 100,
               status := Status.connected, hostname := none } ∧
    (heartbeatFile 1000
        { clientId := some "a", timestamp := none, bootTime := some 200,
          isReboot := false, isFirstRun := false, hostname := none }
        { events := [],
          clients := [("a", { lastSeen := 0, bootTime := 100,
                              status := Status.connected, hostname := none })] }).1.events.countP
        (fun e => e.type = EventType.reboot) = 0 := by
  constructor
  · rfl
  · decide

/-- C2 amended: in the Redis-backed handler (`dist/index.js`), a heartbeat
from a client with an existing record whose reported `bootTime` is present
and differs from the stored one emits exactly one `reboot` event (the list
becomes the reboot event pushed onto the old list, trimmed) when the
report is not flagged `isFirstRun`, and none when `isFirstRun` is set; the
file-backed handler instead keys reboot emission on the report's
`isReboot` flag alone. -/
theorem C2_bootTime_reboot_redis_amended
    (now : Int) (req : HeartbeatReq) (st : RedisState) (cid : String)
    (c : RedisClient) (b : Int)
    (hcid : req.clientId = some cid) (hne : cid ≠ "")
    (hl : lookupC ("client:" ++ cid) st.clients = some c)
    (hb : req.bootTime = some b) (hdiff : b ≠ c.bootTime) :
    (req.isFirstRun = false →
      (heartbeatRedis now req st).1.events
        = redisAppend (mkRebootEvent now cid req.hostname) st.events ∧
      (heartbeatRedis now req st).2 = RedisResult.ok true) ∧
    (req.isFirstRun = true →
      (heartbeatRedis now req st).1.events = st.events ∧
      (heartbeatRedis now req st).2 = RedisResult.ok false) := by
  have hfal : jsFalsy (some cid) = false := by simp [jsFalsy, hne]
  cases hf : req.isFirstRun <;>
    simp [heartbeatRedis, hfal, hcid, hl, hb, hf, Ne.symm hdiff]

theorem C2_bootTime_reboot_redis_amended_witness :
    ((false : Bool) = false →
      (heartbeatRedis 1000
          { clientId := some "a", timestamp := none, bootTime := some 200,
            isReboot := false, isFirstRun := false, hostname := none }
          { events := [],
            clients := [("client:a", { lastSeen := 0, bootTime := 100,
                                       status := Status.connected,
                                       hostname := "unknown" })] }).1.events
        = redisAppend (mkRebootEvent 1000 "a" none) [] ∧
      (heartbeatRedis 1000
          { clientId := some "a", timestamp := none, bootTime := some 200,
            isReboot := false, isFirstRun := false, hostname := none }
          { events := [],
            clients := [("client:a", { lastSeen := 0, bootTime := 100,
                                       status := Status.connected,
                                       hostname := "unknown" })] }).2
        = RedisResult.ok true) ∧
    ((false : Bool) = true →
      (heartbeatRedis 1000
          { clientId := some "a", timestamp := none, bootTime := some 200,
            isReboot := false, isFirstRun := false, hostname := none }
          { events := [],
            clients := [("client:a", { lastSeen := 0, bootTime := 100,
                                       status := Status.connected,
                                       hostname := "unknown" })] }).1.events = [] ∧
      (heartbeatRedis 1000
          { clientId := some "a", timestamp := none, bootTime := some 200,
            isReboot := false, isFirstRun := false, hostname := none }
          { events := [],
            clients := [("client:a", { lastSeen := 0, bootTime := 100,
                                       status := Status.connected,
                                       hostname := "unknown" })] }).2
        = RedisResult.ok false) :=
  C2_bootTime_reboot_redis_amended 1000
    { clientId := some "a", timestamp := none, bootTime := some 200,
      isReboot := false, isFirstRun := false, hostname := none }
    { events := [],
      clients := [("client:a", { lastSeen := 0, bootTime := 100,
                                 status := Status.connected,
                                 hostname := "unknown" })] }
    "a" { lastSeen := 0, bootTime := 100, status := Status.connected,
          hostname := "unknown" } 200
    rfl (by decide) rfl rfl (by decide)

/-- C7 counterexample: a heartbeat from client `"a"` carrying no
`bootTime` at all does not leave the stored `bootTime` unchanged — the
file-backed handler's `bootTime: bootTime || now.toISOString()` replaces
the stored value `100` with the processing time `5000`. -/
theorem C7_bootTime_absent_counterexample :
    (lookupC "a" (MonitorData.clients
        { events := [],
          clients := [("a", { lastSeen := 0, bootTime := 100,
                              status := Status.connected, hostname := none })] })).map
        ClientInfo.bootTime = some 100 ∧
    (lookupC "a" (heartbeatFile 5000
        { clientId := some "a", timestamp := none, bootTime := none,
          isReboot := false, isFirstRun := false, hostname := none }
        { events := [],
          clients := [("a", { lastSeen := 0, bootTime := 100,
                              status := Status.connected, hostname := none })] }).1.clients).map
        ClientInfo.bootTime = some 5000 := by
  constructor
  · rfl
  · decide

/-- C7 amended: a heartbeat whose report carries the same `bootTime` as
stored leaves the stored `bootTime` unchanged, in both heartbeat handlers;
but a heartbeat carrying no `bootTime` at all sets the stored `bootTime`
to the processing time `now` (the `bootTime || now` fallback), so the
stored `bootTime` also changes on every bootTime-less heartbeat. -/
theorem C7_bootTime_update_amended
    (now : Int) (req : HeartbeatReq) (stF : MonitorData) (stR : RedisState)
    (cid : String) (cF : ClientInfo) (cR : RedisClient)
    (hcid : req.clientId = some cid) (hne : cid ≠ "")
    (_hlF : lookupC cid stF.clients = some cF)
    (_hlR : lookupC ("client:" ++ cid) stR.clients = some cR) :
    ((req.bootTime = some cF.bootTime →
        (lookupC cid (heartbeatFile now req stF).1.clients).map ClientInfo.bootTime
          = some cF.bootTime) ∧
     (req.bootTime = none →
        (lookupC cid (heartbeatFile now req stF).1.clients).map ClientInfo.bootTime
          = some now)) ∧
    ((req.bootTime = some cR.bootTime →
        (lookupC ("client:" ++ cid) (heartbeatRedis now req stR).1.clients).map
            RedisClient.bootTime = some cR.bootTime) ∧
     (req.bootTime = none →
        (lookupC ("client:" ++ cid) (heartbeatRedis now req stR).1.clients).map
            RedisClient.bootTime = some now)) := by
  have hfal : jsFalsy (some cid) = false := by simp [jsFalsy, hne]
  refine ⟨⟨fun h => ?_, fun h => ?_⟩, ⟨fun h => ?_, fun h => ?_⟩⟩ <;>
    simp [heartbeatFile, heartbeatRedis, hfal, hcid, h, lookupC_upsert_self]

theorem C7_bootTime_update_amended_witness :
    ((some (100 : Int) = some 100 →
        (lookupC "a" (heartbeatFile 5000
            { clientId := some "a", timestamp := none, bootTime := some 100,
              isReboot := false, isFirstRun := false, hostname := none }
            { events := [],
              clients := [("a", { lastSeen := 0, bootTime := 100,
                                  status := Status.connected,
                                  hostname := none })] }).1.clients).map
            ClientInfo.bootTime = some 100) ∧
     (some (100 : Int) = none →
        (lookupC "a" (heartbeatFile 5000
            { clientId := some "a", timestamp := none, bootTime := some 100,
              isReboot := false, isFirstRun := false, hostname := none }
            { events := [],
              clients := [("a", { lastSeen := 0, bootTime := 100,
                                  status := Status.connected,
                                  hostname := none })] }).1.clients).map
            ClientInfo.bootTime = some 5000)) ∧
    ((some (100 : Int) = some 100 →
        (lookupC "client:a" (heartbeatRedis 5000
            { clientId := some "a", timestamp := none, bootTime := some 100,
              isReboot := false, isFirstRun := false, hostname := none }
            { events := [],
              clients := [("client:a", { lastSeen := 0, bootTime := 100,
                                         status := Status.connected,
                                         hostname := "h" })] }).1.clients).map
            RedisClient.bootTime = some 100) ∧
     (some (100 : Int) = none →
        (lookupC "client:a" (heartbeatRedis 5000
            { clientId := some "a", timestamp := none, bootTime := some 100,
              isReboot := false, isFirstRun := false, hostname := none }
            { events := [],
              clients := [("client:a", { lastSeen := 0, bootTime := 100,
                                         status := Status.connected,
                                         hostname := "h" })] }).1.clients).map
            RedisClient.bootTime = some 5000)) :=
  C7_bootTime_update_amended 5000
    { clientId := some "a", timestamp := none, bootTime := some 100,
      isReboot := false, isFirstRun := false, hostname := none }
    { events := [],
      clients := [("a", { lastSeen := 0, bootTime := 100,
                          status := Status.connected, hostname := none })] }
    { events := [],
      clients := [("client:a", { lastSeen := 0, bootTime := 100,
                                 status := Status.connected, hostname := "h" })] }
    "a"
    { lastSeen := 0, bootTime := 100, status := Status.connected, hostname := none }
    { lastSeen := 0, bootTime := 100, status := Status.connected, hostname := "h" }
    rfl (by decide) rfl rfl

/-- C9 counterexample: a single heartbeat at time `5000` from the
disconnected client `"a"` with `isReboot` set appends two distinct events
(a reboot and a reconnection), yet their `id` fields coincide — both are
the timestamp-derived `event_5000` — so event ids are not unique. -/
theorem C9_event_id_collision_counterexample :
    (heartbeatFile 5000
        { clientId := some "a", timestamp := none, bootTime := some 7,
          isReboot := true, isFirstRun := false, hostname := none }
        { events := [],
          clients := [("a", { lastSeen := 0, bootTime := 0,
                              status := Status.disconnected,
                              hostname := none })] }).1.events.length = 2 ∧
    (heartbeatFile 5000
        { clientId := some "a", timestamp := none, bootTime := some 7,
          isReboot := true, isFirstRun := false, hostname := none }
        { events := [],
          clients := [("a", { lastSeen := 0, bootTime := 0,
                              status := Status.disconnected,
                              hostname := none })] }).1.events.Nodup ∧
    ¬ ((heartbeatFile 5000
        { clientId := some "a", timestamp := none, bootTime := some 7,
          isReboot := true, isFirstRun := false, hostname := none }
        { events := [],
          clients := [("a", { lastSeen := 0, bootTime := 0,
                              status := Status.disconnected,
                              hostname := none })] }).1.events.map PowerEvent.id).Nodup := by
  refine ⟨by decide, by decide, by decide⟩

/-- C9 amended: event ids are derived from the emission timestamp alone
(`event_Date.now()`), so the two events (reboot and reconnection) that a
single heartbeat emits at one instant carry the *same* id: whenever a
heartbeat from a disconnected client with `isReboot` set fires both, the
two appended events both have id `event_<now>`. -/
theorem C9_same_instant_ids_amended
    (now : Int) (req : HeartbeatReq) (st : MonitorData) (cid : String) (c : ClientInfo)
    (hcid : req.clientId = some cid) (hne : cid ≠ "")
    (hl : lookupC cid st.clients = some c) (hdisc : c.status = Status.disconnected)
    (hrb : req.isReboot = true) :
    ((heartbeatFile now req st).1.events.drop st.events.length).map PowerEvent.id
      = ["event_" ++ toString now, "event_" ++ toString now] := by
  have hfal : jsFalsy (some cid) = false := by simp [jsFalsy, hne]
  simp [heartbeatFile, hfal, hcid, hl, hdisc, hrb, mkRebootEvent, mkReconEvent,
    List.append_assoc, List.drop_left]

theorem C9_same_instant_ids_amended_witness :
    ((heartbeatFile 5000
        { clientId := some "a", timestamp := none, bootTime := some 7,
          isReboot := true, isFirstRun := false, hostname := none }
        { events := [],
          clients := [("a", { lastSeen := 0, bootTime := 0,
                              status := Status.disconnected,
                              hostname := none })] }).1.events.drop
        ([] : List PowerEvent).length).map PowerEvent.id
      = ["event_" ++ toString (5000 : Int), "event_" ++ toString (5000 : Int)] :=
  C9_same_instant_ids_amended 5000
    { clientId := some "a", timestamp := none, bootTime := some 7,
      isReboot := true, isFirstRun := false, hostname := none }
    { events := [],
      clients := [("a", { lastSeen := 0, bootTime := 0,
                          status := Status.disconnected, hostname := none })] }
    "a"
    { lastSeen := 0, bootTime := 0, status := Status.disconnected, hostname := none }
    rfl (by decide) rfl rfl rfl

/-- A fixture event for the event-log bound counterexample. -/
def c5event : PowerEvent :=
  mkDiscEvent 0 "x" { lastSeen := 0, bootTime := 0,
                      status := Status.connected, hostname := none }

/-- A fixture state holding exactly 1000 events and one stale connected
client. -/
def c5state : MonitorData :=
  { events := List.replicate 1000 c5event
    clients := [("a", { lastSeen := 0, bootTime := 0,
                        status := Status.connected, hostname := none })] }

/-- C5 counterexample: the file-backed event log is not bounded — the
sweep's bare `monitorData.events.push(event)` takes a log already holding
the configured maximum of 1000 events to 1001 events. -/
theorem C5_unbounded_log_counterexample :
    c5state.events.length = 1000 ∧
    (checkDisconnectedClients 400000 c5state).events.length = 1001 := by
  constructor
  · show (List.replicate 1000 c5event).length = 1000
    rw [List.length_replicate]
  · show (List.replicate 1000 c5event ++
        [mkDiscEvent 400000 "a" { lastSeen := 0, bootTime := 0,
                                  status := Status.connected, hostname := none }]).length = 1001
    rw [List.length_append, List.length_replicate, List.length_singleton]

theorem take_append_take {α : Type} (l m : List α) (n : Nat) :
    (l ++ m.take n).take n = (l ++ m).take n := by
  rw [List.take_append_eq_append_take, List.take_append_eq_append_take,
    List.take_take, Nat.min_eq_left (Nat.sub_le n l.length)]

theorem foldl_redisAppend (es acc : List PowerEvent) :
    es.foldl (fun a e => redisAppend e a) (acc.take EVENTS_MAX)
      = (es.reverse ++ acc).take EVENTS_MAX := by
  induction es generalizing acc with
  | nil => simp
  | cons e rest ih =>
    have h1 : redisAppend e (acc.take EVENTS_MAX) = (e :: acc).take EVENTS_MAX := by
      have h := take_append_take [e] acc EVENTS_MAX
      simpa [redisAppend] using h
    simp only [List.foldl_cons, h1, ih (e :: acc)]
    simp [List.append_assoc]

/-- C5 amended: the Redis-backed event log (`lPush` followed by
`lTrim('events', 0, 999)`) never exceeds the configured maximum of 1000
entries after any sequence of appends, and the retained entries are
exactly the 1000 most recently appended ones (newest first); the
file-backed log of `part_000`, by contrast, is appended to without any
bound. -/
theorem C5_redis_log_bounded_amended (es : List PowerEvent) :
    (es.foldl (fun acc e => redisAppend e acc) []).length ≤ EVENTS_MAX ∧
    es.foldl (fun acc e => redisAppend e acc) [] = es.reverse.take EVENTS_MAX := by
  have h := foldl_redisAppend es []
  simp only [List.take_nil, List.append_nil] at h
  exact ⟨h ▸ List.length_take_le EVENTS_MAX es.reverse, h⟩

/-- C10: in the liveness report, the computed `timeoutMinutes` is
`parseInt(timeout) || 5`; a client is `active` iff its last heartbeat is
strictly newer than `now - timeoutMinutes` minutes, so a client exactly
`timeoutMinutes` old is `inactive`; and the timeout defaults to 5 when the
query parameter is absent or not parseable as an integer. -/
theorem C10_liveness_report_boundary_and_default
    (now : Int) (q : Option String) (s : String) (d : ClientData)
    (st : HeartbeatsData) :
    (heartbeatStatus now q st).1 = jsIntOr 5 q ∧
    (heartbeatStatus now q st).2
      = st.clients.map (fun p =>
          (p.1, clientLiveness now (jsIntOr 5 q) p.2,
           (now - p.2.lastHeartbeat).fdiv 60000)) ∧
    (clientLiveness now (jsIntOr 5 q) d = Liveness.active ↔
      d.lastHeartbeat > now - (jsIntOr 5 q) * 60000) ∧
    (d.lastHeartbeat = now - (jsIntOr 5 q) * 60000 →
      clientLiveness now (jsIntOr 5 q) d = Liveness.inactive) ∧
    jsIntOr 5 none = 5 ∧
    (parseIntJS s = none → jsIntOr 5 (some s) = 5) := by
  refine ⟨rfl, rfl, ?_, ?_, rfl, fun h => by simp [jsIntOr, h]⟩
  · by_cases hcond : d.lastHeartbeat > now - (jsIntOr 5 q) * 60000 <;>
      simp [clientLiveness, hcond]
  · intro h
    simp [clientLiveness, h]

theorem C10_liveness_report_boundary_and_default_witness :
    (heartbeatStatus 600000 (some "xx")
        { clients := [("c", { lastHeartbeat := 300000, ip := none,
                              userAgent := none, totalHeartbeats := 1 })] }).1
      = jsIntOr 5 (some "xx") ∧
    (heartbeatStatus 600000 (some "xx")
        { clients := [("c", { lastHeartbeat := 300000, ip := none,
                              userAgent := none, totalHeartbeats := 1 })] }).2
      = ({ clients := [("c", { lastHeartbeat := 300000, ip := none,
                               userAgent := none, totalHeartbeats := 1 })] } :
          HeartbeatsData).clients.map (fun p =>
            (p.1, clientLiveness 600000 (jsIntOr 5 (some "xx")) p.2,
             ((600000 : Int) - p.2.lastHeartbeat).fdiv 60000)) ∧
    (clientLiveness 600000 (jsIntOr 5 (some "xx"))
        { lastHeartbeat := 300000, ip := none, userAgent := none,
          totalHeartbeats := 1 } = Liveness.active ↔
      (300000 : Int) > 600000 - (jsIntOr 5 (some "xx")) * 60000) ∧
    ((300000 : Int) = 600000 - (jsIntOr 5 (some "xx")) * 60000 →
      clientLiveness 600000 (jsIntOr 5 (some "xx"))
        { lastHeartbeat := 300000, ip := none, userAgent := none,
          totalHeartbeats := 1 } = Liveness.inactive) ∧
    jsIntOr 5 none = 5 ∧
    (parseIntJS "xx" = none → jsIntOr 5 (some "xx") = 5) :=
  C10_liveness_report_boundary_and_default 600000 (some "xx") "xx"
    { lastHeartbeat := 300000, ip := none, userAgent := none, totalHeartbeats := 1 }
    { clients := [("c", { lastHeartbeat := 300000, ip := none,
                          userAgent := none, totalHeartbeats := 1 })] }

theorem sweepEntry_fst (now : Int) (p : String × ClientInfo) :
    (sweepEntry now p).1.1 = p.1 := by
  unfold sweepEntry
  split <;> rfl

/-- The time-to-live programmed on every client hash by
`redis.expire(clientKey, 2592000)`: 30 days, in milliseconds. -/
def CLIENT_TTL_MS : Int := 2592000 * 1000

/-- The Redis-backed store together with the per-key expiry deadlines that
`redis.expire` programs (key metadata, not hash fields, so kept beside
`RedisState`). -/
structure RedisStore where
  state : RedisState
  expiry : List (String × Int)
deriving DecidableEq, Repr

/-- The heartbeat handler of `dist/index.js` including the effect of line
95, `await redis.expire(clientKey, 2592000)`: after the early `clientId`
check, the handler runs `heartbeatRedis` on the hashes and event list and
(re)programs the client key's expiry deadline to `now` plus 30 days. -/
def heartbeatRedisTTL (now : Int) (req : HeartbeatReq) (st : RedisStore) :
    RedisStore × RedisResult :=
  if jsFalsy req.clientId then (st, RedisResult.badRequest)
  else
    let r := heartbeatRedis now req st.state
    ({ state := r.1
       expiry := upsert ("client:" ++ req.clientId.getD "") (now + CLIENT_TTL_MS) st.expiry },
     r.2)

/-- The store-side key expiry that `redis.expire` invokes (Redis's
documented behaviour, not repository code): once a key's programmed
deadline has passed, the store removes the key — and with it the whole
client hash — with no endpoint being called. -/
def redisPurgeExpired (now : Int) (st : RedisStore) : RedisStore :=
  { state := { st.state with
      clients := st.state.clients.filter (fun p =>
        match lookupC p.1 st.expiry with
        | some e => !(e ≤ now)
        | none => true) }
    expiry := st.expiry.filter (fun p => !(p.2 ≤ now)) }

/-- C8 counterexample: the TTL that the Redis-backed heartbeat handler
programs (`redis.expire(clientKey, 2592000)`, dist/index.js line 95) is a
removal path other than the administrative cleanup: a record created by a
heartbeat at time `0` exists afterwards, yet 30 days later the store's
expiry deletes it although no cleanup operation ever ran. -/
theorem C8_ttl_removal_counterexample :
    ("client:a" ∈ ((heartbeatRedisTTL 0
        { clientId := some "a", timestamp := none, bootTime := some 7,
          isReboot := false, isFirstRun := false, hostname := none }
        { state := { events := [], clients := [] },
          expiry := [] }).1.state.clients.map Prod.fst)) ∧
    ("client:a" ∉ ((redisPurgeExpired 2592000000 (heartbeatRedisTTL 0
        { clientId := some "a", timestamp := none, bootTime := some 7,
          isReboot := false, isFirstRun := false, hostname := none }
        { state := { events := [], clients := [] },
          expiry := [] }).1).state.clients.map Prod.fst)) := by
  constructor
  · decide
  · decide

/-- C8 amended: client records are removed only by the administrative
cleanup or by the 30-day TTL the Redis-backed heartbeat handler programs:
processing a heartbeat (in all three variants, the Redis one taken with
its `expire` effect) and running the liveness sweep preserve every
existing registry key — the sweep preserves the key set exactly — the
`DELETE /heartbeat-cleanup` endpoint retains exactly the records whose
`lastHeartbeat` is not older than the configured age cutoff, a heartbeat
(re)programs its client's expiry deadline to 30 days after `now`, and the
store's expiry removes exactly the records whose deadline has passed. -/
theorem C8_records_removed_only_by_cleanup_or_ttl
    (now : Int) (req : HeartbeatReq) (stF : MonitorData) (stS : RedisStore)
    (hst : HeartbeatsData) (hoursQ : Option String)
    (hdr ip ua : Option String) (a : String) (cid : String) :
    (a ∈ stF.clients.map Prod.fst →
      a ∈ (heartbeatFile now req stF).1.clients.map Prod.fst) ∧
    ((checkDisconnectedClients now stF).clients.map Prod.fst
      = stF.clients.map Prod.fst) ∧
    (a ∈ stS.state.clients.map Prod.fst →
      a ∈ (heartbeatRedisTTL now req stS).1.state.clients.map Prod.fst) ∧
    (a ∈ hst.clients.map Prod.fst →
      a ∈ (trackHeartbeat now hdr ip ua hst).clients.map Prod.fst) ∧
    ((cleanup now hoursQ hst).1.clients
      = hst.clients.filter
          (fun p => !(p.2.lastHeartbeat < now - (jsIntOr 24 hoursQ) * 3600000))) ∧
    (req.clientId = some cid → cid ≠ "" →
      lookupC ("client:" ++ cid) (heartbeatRedisTTL now req stS).1.expiry
        = some (now + CLIENT_TTL_MS)) ∧
    ((redisPurgeExpired now stS).state.clients
      = stS.state.clients.filter (fun p =>
          match lookupC p.1 stS.expiry with
          | some e => !(e ≤ now)
          | none => true)) := by
  refine ⟨?_, ?_, ?_, ?_, rfl, ?_, rfl⟩
  · intro h
    by_cases hb : jsFalsy req.clientId
    · simpa [heartbeatFile, hb] using h
    · simpa [heartbeatFile, hb] using
        mem_keys_upsert (req.clientId.getD "")
          { lastSeen := now, bootTime := req.bootTime.getD now,
            status := Status.connected, hostname := req.hostname } h
  · simp [checkDisconnectedClients, List.map_map, Function.comp_def, sweepEntry_fst]
  · intro h
    by_cases hb : jsFalsy req.clientId
    · simpa [heartbeatRedisTTL, hb] using h
    · simpa [heartbeatRedisTTL, heartbeatRedis, hb] using
        mem_keys_upsert ("client:" ++ req.clientId.getD "")
          { lastSeen := now, bootTime := req.bootTime.getD now,
            status := Status.connected, hostname := strOr req.hostname "unknown" } h
  · intro h
    simpa [trackHeartbeat] using
      mem_keys_upsert (strOr hdr (strOr ip "unknown"))
        { lastHeartbeat := now, ip := ip, userAgent := ua,
          totalHeartbeats := ((lookupC (strOr hdr (strOr ip "unknown")) hst.clients).map
            ClientData.totalHeartbeats).getD 0 + 1 } h
  · intro hcid hne
    have hfal : jsFalsy (some cid) = false := by simp [jsFalsy, hne]
    simp [heartbeatRedisTTL, hfal, hcid, lookupC_upsert_self]

theorem C8_records_removed_only_by_cleanup_or_ttl_witness :
    (("a" : String) ∈ (MonitorData.clients
        { events := [],
          clients := [("a", { lastSeen := 0, bootTime := 0,
                              status := Status.connected, hostname := none })] }).map
        Prod.fst →
      "a" ∈ (heartbeatFile 1000
        { clientId := some "b", timestamp := none, bootTime := none,
          isReboot := false, isFirstRun := false, hostname := none }
        { events := [],
          clients := [("a", { lastSeen := 0, bootTime := 0,
                              status := Status.connected, hostname := none })] }).1.clients.map
        Prod.fst) ∧
    ((checkDisconnectedClients 1000
        { events := [],
          clients := [("a", { lastSeen := 0, bootTime := 0,
                              status := Status.connected, hostname := none })] }).clients.map
        Prod.fst
      = (MonitorData.clients
        { events := [],
          clients := [("a", { lastSeen := 0, bootTime := 0,
                              status := Status.connected, hostname := none })] }).map
        Prod.fst) ∧
    (("a" : String) ∈ (RedisState.clients
        { events := [], clients := [("a", { lastSeen := 0, bootTime := 0,
                                            status := Status.connected,
                                            hostname := "h" })] }).map Prod.fst →
      "a" ∈ (heartbeatRedisTTL 1000
        { clientId := some "b", timestamp := none, bootTime := none,
          isReboot := false, isFirstRun := false, hostname := none }
        { state := { events := [],
                     clients := [("a", { lastSeen := 0, bootTime := 0,
                                         status := Status.connected,
                                         hostname := "h" })] },
          expiry := [("a", 5)] }).1.state.clients.map Prod.fst) ∧
    (("a" : String) ∈ (HeartbeatsData.clients
        { clients := [("a", { lastHeartbeat := 0, ip := none,
                              userAgent := none, totalHeartbeats := 1 })] }).map
        Prod.fst →
      "a" ∈ (trackHeartbeat 1000 (some "b") none none
        { clients := [("a", { lastHeartbeat := 0, ip := none,
                              userAgent := none, totalHeartbeats := 1 })] }).clients.map
        Prod.fst) ∧
    ((cleanup 1000 none
        { clients := [("a", { lastHeartbeat := 0, ip := none,
                              userAgent := none, totalHeartbeats := 1 })] }).1.clients
      = (HeartbeatsData.clients
        { clients := [("a", { lastHeartbeat := 0, ip := none,
                              userAgent := none, totalHeartbeats := 1 })] }).filter
          (fun p => !(p.2.lastHeartbeat < 1000 - (jsIntOr 24 none) * 3600000))) ∧
    (some "b" = some "b" → ("b" : String) ≠ "" →
      lookupC "client:b" (heartbeatRedisTTL 1000
        { clientId := some "b", timestamp := none, bootTime := none,
          isReboot := false, isFirstRun := false, hostname := none }
        { state := { events := [],
                     clients := [("a", { lastSeen := 0, bootTime := 0,
                                         status := Status.connected,
                                         hostname := "h" })] },
          expiry := [("a", 5)] }).1.expiry
        = some (1000 + CLIENT_TTL_MS)) ∧
    ((redisPurgeExpired 1000
        { state := { events := [],
                     clients := [("a", { lastSeen := 0, bootTime := 0,
                                         status := Status.connected,
                                         hostname := "h" })] },
          expiry := [("a", 5)] }).state.clients
      = (RedisState.clients
          { events := [], clients := [("a", { lastSeen := 0, bootTime := 0,
                                              status := Status.connected,
                                              hostname := "h" })] }).filter (fun p =>
          match lookupC p.1 ([("a", 5)] : List (String × Int)) with
          | some e => !(e ≤ (1000 : Int))
          | none => true)) :=
  C8_records_removed_only_by_cleanup_or_ttl 1000
    { clientId := some "b", timestamp := none, bootTime := none,
      isReboot := false, isFirstRun := false, hostname := none }
    { events := [],
      clients := [("a", { lastSeen := 0, bootTime := 0,
                          status := Status.connected, hostname := none })] }
    { state := { events := [],
                 clients := [("a", { lastSeen := 0, bootTime := 0,
                                     status := Status.connected,
                                     hostname := "h" })] },
      expiry := [("a", 5)] }
    { clients := [("a", { lastHeartbeat := 0, ip := none,
                          userAgent := none, totalHeartbeats := 1 })] }
    none (some "b") none none "a" "b"

theorem sweepEntry_pair (now : Int) (p : String × ClientInfo) :
    (sweepEntry now p).1 = (p.1, sweepUpdate now p.2) := by
  unfold sweepEntry sweepUpdate
  split <;> rfl

theorem sweep_clients_eq (now : Int) (st : MonitorData) :
    (checkDisconnectedClients now st).clients
      = st.clients.map (fun p => (p.1, sweepUpdate now p.2)) := by
  simp [checkDisconnectedClients, List.map_map, Function.comp_def, sweepEntry_pair]

theorem sweep_events_eq (now : Int) (st : MonitorData) :
    (checkDisconnectedClients now st).events
      = st.events ++ (st.clients.map (sweepEntry now)).filterMap (fun q => q.2) := rfl

theorem countP_disc_emitted (now : Int) (cid : String)
    (l : List (String × ClientInfo)) :
    ((l.map (sweepEntry now)).filterMap (fun q => q.2)).countP
        (fun e => e.clientId = cid ∧ e.type = EventType.disconnection)
      = l.countP (fun p => p.1 = cid ∧ sweepGuard now p.2 = true) := by
  induction l with
  | nil => rfl
  | cons p rest ih =>
    by_cases hg : sweepGuard now p.2
    · have hse : sweepEntry now p
          = ((p.1, { p.2 with status := Status.disconnected }),
             some (mkDiscEvent now p.1 p.2)) := by
        simp [sweepEntry, hg]
      simp only [List.map_cons, hse, List.filterMap_cons, List.countP_cons, ih]
      simp [mkDiscEvent, hg]
    · have hse : sweepEntry now p = (p, none) := by simp [sweepEntry, hg]
      simp only [List.map_cons, hse, List.filterMap_cons, List.countP_cons, ih]
      simp [hg]

theorem countP_keys_zero {α : Type} (P : α → Prop) [DecidablePred P]
    {cid : String} {l : List (String × α)} (h : cid ∉ l.map Prod.fst) :
    l.countP (fun p => p.1 = cid ∧ P p.2) = 0 := by
  induction l with
  | nil => rfl
  | cons q rest ih =>
    rw [List.map_cons, List.mem_cons, not_or] at h
    have hne : q.1 ≠ cid := fun he => h.1 he.symm
    rw [List.countP_cons, ih h.2]
    simp [hne]

theorem countP_keys_nodup {α : Type} (P : α → Prop) [DecidablePred P]
    {cid : String} {c : α} {l : List (String × α)}
    (hnd : (l.map Prod.fst).Nodup) (hmem : (cid, c) ∈ l) :
    l.countP (fun p => p.1 = cid ∧ P p.2) = if P c then 1 else 0 := by
  induction l with
  | nil => simp at hmem
  | cons q rest ih =>
    simp only [List.map_cons, List.nodup_cons] at hnd
    rcases List.mem_cons.mp hmem with hq | hq
    · have h0 : rest.countP (fun p => p.1 = cid ∧ P p.2) = 0 := by
        refine countP_keys_zero P ?_
        have : q.1 = cid := by rw [← hq]
        exact this ▸ hnd.1
      rw [List.countP_cons, h0]
      rw [← hq]
      by_cases hp : P c <;> simp [hp]
    · have hne : q.1 ≠ cid := by
        intro he
        exact hnd.1 (he ▸ List.mem_map_of_mem Prod.fst hq)
      rw [List.countP_cons, ih hnd.2 hq]
      simp [hne]

/-- C4: the liveness sweep is idempotent per client: for a client that is
connected and timed out, running the sweep twice in succession (at `now`,
then at any `now'`) with no intervening heartbeat adds exactly one
`disconnection` event for that client in total, because the second sweep
skips the now-`disconnected` record; and a client already `disconnected`
gains no disconnection event from either sweep. -/
theorem C4_sweep_idempotent_per_client
    (st : MonitorData) (now now' : Int) (cid : String) (c : ClientInfo)
    (hnd : (st.clients.map Prod.fst).Nodup) (hmem : (cid, c) ∈ st.clients) :
    (c.status = Status.connected → now - c.lastSeen > FIVE_MINUTES →
      (checkDisconnectedClients now' (checkDisconnectedClients now st)).events.countP
          (fun e => e.clientId = cid ∧ e.type = EventType.disconnection)
        = st.events.countP
            (fun e => e.clientId = cid ∧ e.type = EventType.disconnection) + 1) ∧
    (c.status = Status.disconnected →
      (checkDisconnectedClients now' (checkDisconnectedClients now st)).events.countP
          (fun e => e.clientId = cid ∧ e.type = EventType.disconnection)
        = st.events.countP
            (fun e => e.clientId = cid ∧ e.type = EventType.disconnection)) := by
  have hkeys1 : ((checkDisconnectedClients now st).clients.map Prod.fst).Nodup := by
    rw [sweep_clients_eq]
    simpa [List.map_map, Function.comp_def] using hnd
  have hmem1 : (cid, sweepUpdate now c) ∈ (checkDisconnectedClients now st).clients := by
    rw [sweep_clients_eq]
    exact List.mem_map_of_mem (fun p => (p.1, sweepUpdate now p.2)) hmem
  have hev2 :
      (checkDisconnectedClients now' (checkDisconnectedClients now st)).events.countP
          (fun e => e.clientId = cid ∧ e.type = EventType.disconnection)
        = st.events.countP (fun e => e.clientId = cid ∧ e.type = EventType.disconnection)
          + (if sweepGuard now c = true then 1 else 0)
          + (if sweepGuard now' (sweepUpdate now c) = true then 1 else 0) := by
    rw [sweep_events_eq now' _, List.countP_append, sweep_events_eq now st,
      List.countP_append, countP_disc_emitted, countP_disc_emitted,
      countP_keys_nodup (fun x => sweepGuard now x = true) hnd hmem,
      countP_keys_nodup (fun x => sweepGuard now' x = true) hkeys1 hmem1]
  constructor
  · intro hc ht
    have hg : sweepGuard now c = true := by simp [sweepGuard, hc, ht]
    have hup : sweepUpdate now c = { c with status := Status.disconnected } := by
      simp [sweepUpdate, hg]
    have hg2 : sweepGuard now' (sweepUpdate now c) = false := by
      rw [hup]
      simp [sweepGuard]
    rw [hev2, hg, hg2]
    simp
  · intro hc
    have hg : sweepGuard now c = false := by simp [sweepGuard, hc]
    have hup : sweepUpdate now c = c := by simp [sweepUpdate, hg]
    have hg2 : sweepGuard now' (sweepUpdate now c) = false := by
      rw [hup]
      simp [sweepGuard, hc]
    rw [hev2, hg, hg2]
    simp

theorem C4_sweep_idempotent_per_client_witness :
    ((Status.connected = Status.connected →
      (400000 : Int) - 0 > FIVE_MINUTES →
      (checkDisconnectedClients 500000 (checkDisconnectedClients 400000
          { events := [],
            clients := [("a", { lastSeen := 0, bootTime := 0,
                                status := Status.connected,
                                hostname := none })] })).events.countP
          (fun e => e.clientId = "a" ∧ e.type = EventType.disconnection)
        = (List.countP
            (fun e => decide (e.clientId = "a" ∧ e.type = EventType.disconnection))
            ([] : List PowerEvent)) + 1) ∧
     (Status.connected = Status.disconnected →
      (checkDisconnectedClients 500000 (checkDisconnectedClients 400000
          { events := [],
            clients := [("a", { lastSeen := 0, bootTime := 0,
                                status := Status.connected,
                                hostname := none })] })).events.countP
          (fun e => e.clientId = "a" ∧ e.type = EventType.disconnection)
        = List.countP
            (fun e => decide (e.clientId = "a" ∧ e.type = EventType.disconnection))
            ([] : List PowerEvent))) :=
  C4_sweep_idempotent_per_client
    { events := [],
      clients := [("a", { lastSeen := 0, bootTime := 0,
                          status := Status.connected, hostname := none })] }
    400000 500000 "a"
    { lastSeen := 0, bootTime := 0, status := Status.connected, hostname := none }
    (by simp) (by simp)

end HeartbeatMonitor
